import Mathlib

/-!
Verification of the `SbmlDatabase` synchronizer and similarity scorer
(`SbmlDatabase.py`), as a shallow embedding over a property-graph store.

Store model: a `Graph` is a list of nodes and a list of relationships.
A node carries a numeric identity `nid`, its labels, and the two string
properties the code reads (`tag`, `id`); a property may be absent
(`Option`).  A relationship carries its type name and the identities of
its two endpoint nodes.

The collaborators from the `neo4jsbml` package (SBML parsing and node /
relationship formatting) appear as an opaque importer function: given the
source path and the tag it either produces the node and relationship
records to write (`some`) or fails (`none`, a raised `MappingError`;
an atomic failure of the first bulk write is modelled the same way,
since in both cases the run stops before any new datum is stored).
-/

structure GNode where
  nid : Nat
  labels : List String
  tag : Option String
  id : Option String
deriving DecidableEq, Repr

structure GRel where
  typ : String
  src : Nat
  dst : Nat
deriving DecidableEq, Repr

structure Graph where
  nodes : List GNode
  rels : List GRel
deriving DecidableEq, Repr

/-- The node predicate of `MATCH (n) WHERE n.tag="model_id"`: the `tag`
property is present and equal to the (inert) model id. -/
def tagIs (t : String) (n : GNode) : Bool := decide (n.tag = some t)

/-- Embeds `SbmlDatabase.check_model_exists` (line 117): match every node whose
`tag` equals the model id, return whether the result set is nonempty. -/
def check_model_exists (g : Graph) (t : String) : Bool :=
  g.nodes.any (tagIs t)

/-- Embeds `SbmlDatabase.delete_model` (line 133): `MATCH (n) WHERE n.tag="t"
DETACH DELETE n` — every node whose `tag` equals `t` is removed, and
every relationship incident to a removed node identity is detached. -/
def delete_model (g : Graph) (t : String) : Graph :=
  let doomed : List Nat := (g.nodes.filter (tagIs t)).map GNode.nid
  { nodes := g.nodes.filter (fun n => !(tagIs t n))
    rels := g.rels.filter
      (fun r => decide (r.src ∉ doomed) && decide (r.dst ∉ doomed)) }

/-- The nodes of the store that carry `tag = t` (the stored copy of the
model identified by `t`). -/
def nodesWithTag (g : Graph) (t : String) : List GNode :=
  g.nodes.filter (tagIs t)

/-- The importer collaborator: `sbml.SbmlToNeo4j.from_sbml` followed by
`format_nodes` / `format_relationships`.  Input: source path and tag;
output: the node and relationship records, or `none` for a failure
raised before the first bulk write. -/
def Importer : Type := String → String → Option (List GNode × List GRel)

/-- Observable store/importer steps of one `load_and_import_model` run,
in execution order. -/
inductive SyncEvent where
  | checkExists (t : String)
  | deleteTag (t : String)
  | importCall (path t : String)
  | writeNodes (ns : List GNode)
  | writeRels (rs : List GRel)
deriving DecidableEq, Repr

/-- Outcome of one `load_and_import_model` run: the resulting store, and
whether the run returned normally (`ok`) or raised (`err`). -/
inductive SyncResult where
  | ok (g : Graph)
  | err (g : Graph)
deriving DecidableEq, Repr

/-- Embeds `SbmlDatabase.load_and_import_model` (lines 57–87): check whether the
tag already exists; if so delete the old model; build the source path
`folder + "/" + model_id + ".xml"`; run the importer; on success append
all produced nodes in one bulk call and then all produced relationships
in a second bulk call.  Returns the outcome together with the trace of
store/importer events. -/
def load_and_import_model (imp : Importer) (folder : String) (g : Graph)
    (t : String) : SyncResult × List SyncEvent :=
  let ex := check_model_exists g t
  let g1 := if ex then delete_model g t else g
  let path := folder ++ "/" ++ t ++ ".xml"
  let pre := SyncEvent.checkExists t ::
    ((if ex then [SyncEvent.deleteTag t] else []) ++ [SyncEvent.importCall path t])
  match imp path t with
  | none => (SyncResult.err g1, pre)
  | some (ns, rs) =>
      (SyncResult.ok { nodes := g1.nodes ++ ns, rels := g1.rels ++ rs },
       pre ++ [SyncEvent.writeNodes ns, SyncEvent.writeRels rs])

/-- Embeds `SbmlDatabase.import_models` (lines 90–104): loop over the list in
order, synchronizing each tag; there is no exception handler, so the
first failing tag aborts the loop and the exception propagates.
Returns the final store, the tags synchronized successfully (in order),
and the failing tag if any. -/
def import_models (imp : Importer) (folder : String) (g : Graph) :
    List String → Graph × List String × Option String
  | [] => (g, [], none)
  | t :: ts =>
      match load_and_import_model imp folder g t with
      | (SyncResult.ok g1, _) =>
          let r := import_models imp folder g1 ts
          (r.1, t :: r.2.1, r.2.2)
      | (SyncResult.err g1, _) => (g1, [], some t)

/-!
Embedding of the Cypher similarity query of `SbmlDatabase.compare_models`
(lines 144–206), executed against a `Graph`.

Cypher semantics used:
* `count{ (n)-[:T1|T2*]->(_) }` counts the matches of a variable-length
  pattern, i.e. the directed trails (paths with pairwise distinct
  relationships, length at least one) leaving `n` through relationships
  of the listed types; `count{ (n)-[:T1|T2*]-(_) }` counts the
  undirected such trails.
* A plain `MATCH` that finds nothing eliminates the row, so a
  zero-match stage drives the whole query to an empty result set.
* `x / 0.0` on the counts occurs only as `0 / 0.0`, which is `NaN`;
  `NaN` is modelled as `none` in `Option ℚ` and propagates to the
  returned score.
-/

/-- Each element of a list paired with the remaining elements. -/
def picks : List α → List (α × List α)
  | [] => []
  | a :: as => (a, as) :: (picks as).map (fun p => (p.1, a :: p.2))

/-- One directed hop of a variable-length pattern restricted to the
relationship types `types`: from node `v` through relationship `r`. -/
def dirStep (types : List String) (v : Nat) (r : GRel) : List Nat :=
  if r.typ ∈ types ∧ r.src = v then [r.dst] else []

/-- One undirected hop of a variable-length pattern restricted to the
relationship types `types`. -/
def undirStep (types : List String) (v : Nat) (r : GRel) : List Nat :=
  if r.typ ∈ types then
    (if r.src = v then [r.dst] else []) ++
      (if r.dst = v ∧ r.src ≠ v then [r.src] else [])
  else []

/-- Number of trails (relationship sequences with pairwise distinct
relationships, length ≥ 1) from node `v` drawn from the available
relationships `avail`, extending by `step`. -/
def countTrails (step : Nat → GRel → List Nat) :
    Nat → List GRel → Nat → Nat
  | 0, _, _ => 0
  | Nat.succ fuel, avail, v =>
      (picks avail).foldl
        (fun acc p =>
          acc + ((step v p.1).map
            (fun w => 1 + countTrails step fuel p.2 w)).sum) 0

/-- The four containment relationship types of the structural count
(query lines 158–161). -/
def structTypes : List String :=
  ["HAS_COMPARTMENT", "HAS_UNITDEFINITION", "HAS_SPECIES", "HAS_REACTION"]

/-- The three containment relationship types of the child comparison
(query lines 173–174). -/
def childTypes : List String :=
  ["HAS_COMPARTMENT", "HAS_SPECIES", "HAS_REACTION"]

/-- The `n_elements` value of the query: matches of
`count{ (n)-[:HAS_COMPARTMENT|HAS_UNITDEFINITION|HAS_SPECIES|HAS_REACTION*]->(_) }`,
the directed containment trails leaving node `v`. -/
def elemCount (g : Graph) (v : Nat) : Nat :=
  countTrails (dirStep structTypes) g.rels.length g.rels v

/-- The `n_relationships` value of the query: matches of the same pattern without
direction, the undirected containment trails at node `v`. -/
def relCount (g : Graph) (v : Nat) : Nat :=
  countTrails (undirStep structTypes) g.rels.length g.rels v

/-- The `CASE` expression computing `structural_similarity` (query lines
165–170) from the two element counts and the two relationship counts;
`none` is the `NaN` produced by `0 / toFloat(0)`. -/
def structuralSim (e1 e2 r1 r2 : Nat) : Option ℚ :=
  if e1 = e2 ∧ r1 = r2 then some 1
  else if e1 + e2 = 0 ∨ r1 + r2 = 0 then none
  else some
    ((1 - |(e1 : ℚ) - (e2 : ℚ)| / ((e1 : ℚ) + (e2 : ℚ))) * (1 / 2) +
     (1 - |(r1 : ℚ) - (r2 : ℚ)| / ((r1 : ℚ) + (r2 : ℚ))) * (1 / 2))

/-- The `structural_similarity` value as computed on the store for the two root
nodes `v1` and `v2`. -/
def structuralSimOfGraph (g : Graph) (v1 v2 : Nat) : Option ℚ :=
  structuralSim (elemCount g v1) (elemCount g v2) (relCount g v1) (relCount g v2)

/-- Embeds `MATCH (n:Model {id: i})`: the nodes labelled `Model` whose `id`
property equals `i`, in store order. -/
def modelRoots (g : Graph) (i : String) : List GNode :=
  g.nodes.filter (fun n => decide ("Model" ∈ n.labels) && decide (n.id = some i))

/-- The rows of `MATCH (n)-[:HAS_COMPARTMENT|HAS_SPECIES|HAS_REACTION]->(child)`:
one child node per matching relationship leaving `n`. -/
def childrenOf (g : Graph) (n : GNode) : List GNode :=
  (g.rels.filter (fun r => decide (r.typ ∈ childTypes) && decide (r.src = n.nid))).filterMap
    (fun r => g.nodes.find? (fun m => decide (m.nid = r.dst)))

/-- The rows surviving the two child `MATCH`es and the
`WHERE labels(child1) = labels(child2)` filter (query lines 173–175). -/
def childRows (g : Graph) (n1 n2 : GNode) : List (GNode × GNode) :=
  (childrenOf g n1).flatMap (fun c1 =>
    ((childrenOf g n2).filter (fun c2 => decide (c2.labels = c1.labels))).map
      (fun c2 => (c1, c2)))

/-- Embeds `c1.id IN children2_ids` under Cypher null semantics: an absent `id`
never compares as a member. -/
def idMatches (ids2 : List (Option String)) (c : GNode) : Bool :=
  match c.id with
  | none => false
  | some v => decide (some v ∈ ids2)

/-- The `children_similarity` ratio of query lines 195–198:
matched A-side children over total A-side children, over the surviving
child rows.  Only evaluated on a nonempty row list, where
`total_children > 0` always holds, so the `ELSE 1.0` branch of the
query's `CASE` is dead code. -/
def childRatio (rows : List (GNode × GNode)) : ℚ :=
  let children1 := rows.map Prod.fst
  let ids2 := rows.map (fun p => p.2.id)
  ((children1.filter (idMatches ids2)).length : ℚ) / (children1.length : ℚ)

/-- The `similarity_score` value of one surviving result row for the
root pair `(n1, n2)` (weights `0.5` / `0.5`, query lines 149–150 and
201–204); `none` is a `NaN` score. -/
def rowScore (g : Graph) (n1 n2 : GNode) : Option ℚ :=
  (structuralSimOfGraph g n1.nid n2.nid).map
    (fun s => s * (1 / 2) + childRatio (childRows g n1 n2) * (1 / 2))

/-- The result rows of the whole query: one row per root pair, and only
for pairs with at least one surviving child row — a pair with none is
eliminated by the plain child `MATCH`es. -/
def rowResults (g : Graph) (i1 i2 : String) : List (Option ℚ) :=
  (modelRoots g i1).flatMap (fun n1 =>
    (modelRoots g i2).flatMap (fun n2 =>
      if (childRows g n1 n2).isEmpty then [] else [rowScore g n1 n2]))

/-- What `compare_models` does with the query result (lines 208–211).
`score q` : `result[0]['similarity_score']` returned the number `q`;
`nanScore` : the returned value is `NaN`;
`indexError` : the result set is empty and `result[0]` raises;
`notFound m` : vocabulary for the domain-specific "model `m` not found"
error of the specification — no code path produces it. -/
inductive CompareOutcome where
  | score (q : ℚ)
  | nanScore
  | indexError
  | notFound (missing : String)
deriving DecidableEq, Repr

/-- Embeds `SbmlDatabase.compare_models` (lines 137–211): run the similarity
query and take `result[0]['similarity_score']`. -/
def compare_models (g : Graph) (i1 i2 : String) : CompareOutcome :=
  match (rowResults g i1 i2).head? with
  | none => CompareOutcome.indexError
  | some none => CompareOutcome.nanScore
  | some (some q) => CompareOutcome.score q

/-!
Specification-side reading of the structural counts, for comparison with
what the query computes.  The specification describes the two counts as
"all descendant elements reachable from each root via a fixed set of
containment relationship types (arbitrary depth)" and "all relationships
(of any direction) incident anywhere in that reachable subgraph".
-/

/-- Direct containment successors of node `v`. -/
def dirSucc (g : Graph) (v : Nat) : List Nat :=
  (g.rels.filter (fun r => decide (r.typ ∈ structTypes) && decide (r.src = v))).map GRel.dst

/-- Modelled from the spec: the distinct node identities reachable from
`v` in at least one directed containment hop (one closure step per
relationship is enough to saturate). -/
def specReach (g : Graph) (v : Nat) : List Nat :=
  let step : List Nat → List Nat := fun s => (s ++ s.flatMap (dirSucc g)).dedup
  step^[g.rels.length + 1] ((dirSucc g v).dedup)

/-- Modelled from the spec: the count of descendant elements reachable
from the root `v` via containment relationships at arbitrary depth. -/
def specElemCount (g : Graph) (v : Nat) : Nat :=
  (specReach g v).length

/-- Modelled from the spec: the count of containment relationships (of
any direction) incident anywhere in the subgraph reachable from `v`. -/
def specRelCount (g : Graph) (v : Nat) : Nat :=
  (g.rels.filter (fun r =>
    decide (r.typ ∈ structTypes) &&
      (decide (r.src ∈ v :: specReach g v) || decide (r.dst ∈ v :: specReach g v)))).length

/-- Modelled from the spec: structural similarity computed from the
descendant-element counts and incident-relationship counts, with the
query's own combining formula. -/
def specStructuralSimOfGraph (g : Graph) (v1 v2 : Nat) : Option ℚ :=
  structuralSim (specElemCount g v1) (specElemCount g v2)
    (specRelCount g v1) (specRelCount g v2)

/-!
The query texts, as the Python code builds them by f-string
interpolation of the caller-supplied model id (lines 117, 133 and
144–145).  `TagCond` is the fragment grammar a Cypher parser gives to
the interpolated `WHERE` clause: double quotes delimit string literals,
so a model id containing `"` contributes query structure, not data.
-/

/-- The `WHERE` fragments relevant here: tag-equality and tag-inequality
atoms and disjunction. -/
inductive TagCond where
  | eqLit (s : String)
  | neLit (s : String)
  | orC (c1 c2 : TagCond)
deriving DecidableEq, Repr

/-- Cypher text of a `TagCond` fragment. -/
def renderTagCond : TagCond → String
  | TagCond.eqLit s => "n.tag=\x22" ++ s ++ "\x22"
  | TagCond.neLit s => "n.tag<>\x22" ++ s ++ "\x22"
  | TagCond.orC c1 c2 => renderTagCond c1 ++ " OR " ++ renderTagCond c2

/-- Truth value of a `TagCond` on a node's `tag` property (Cypher null
semantics: a comparison with an absent property never holds). -/
def evalTagCond : TagCond → Option String → Bool
  | TagCond.eqLit s, t => decide (t = some s)
  | TagCond.neLit s, some v => decide (v ≠ s)
  | TagCond.neLit _, none => false
  | TagCond.orC c1 c2, t => evalTagCond c1 t || evalTagCond c2 t

/-- The query text built by `check_model_exists` (line 117). -/
def checkQueryText (m : String) : String :=
  "MATCH (n) WHERE n.tag=\x22" ++ m ++ "\x22 RETURN (n)"

/-- The query text built by `delete_model` (line 133). -/
def deleteQueryText (m : String) : String :=
  "MATCH (n) WHERE n.tag=\x22" ++ m ++ "\x22 DETACH DELETE n"

/-- The opening of the `compare_models` query up to the first
interpolation site (line 144). -/
def compareQueryHead : String :=
  "// Define parameters for the two graphs to compare\n        WITH \x27"

/-- The fixed text between the two interpolation sites of the
`compare_models` query (lines 144–145). -/
def compareQueryMid : String :=
  "\x27 AS graph1_id, \x27"

/-- The fixed text of the `compare_models` query after the second
interpolation site (lines 145–206). -/
def compareQueryTail : String :=
  "\x27 AS graph2_id\n\n        // Define weights for different similarity aspects (adjust as needed)\n        WITH graph1_id, graph2_id,\n            0.5 AS w_structure,\n            0.5 AS w_children\n\n        // Compare nodes\n        MATCH (n1:Model \x7bid: graph1_id\x7d)\n        MATCH (n2:Model \x7bid: graph2_id\x7d)\n\n        // Compare number of nodes and relationships\n        WITH n1, n2, w_structure, w_children,\n            count\x7b(n1)-[:HAS_COMPARTMENT|HAS_UNITDEFINITION|HAS_SPECIES|HAS_REACTION*]->(_)\x7d AS n1_elements,\n            count\x7b(n2)-[:HAS_COMPARTMENT|HAS_UNITDEFINITION|HAS_SPECIES|HAS_REACTION*]->(_)\x7d AS n2_elements,\n            count\x7b(n1)-[:HAS_COMPARTMENT|HAS_UNITDEFINITION|HAS_SPECIES|HAS_REACTION*]-(_)\x7d AS n1_relationships,\n            count\x7b(n2)-[:HAS_COMPARTMENT|HAS_UNITDEFINITION|HAS_SPECIES|HAS_REACTION*]-(_)\x7d AS n2_relationships\n\n        // Calculate structural similarity\n        WITH n1, n2, w_structure, w_children,\n            CASE WHEN n1_elements = n2_elements AND n1_relationships = n2_relationships THEN 1.0\n                ELSE (\n                    (1.0 - abs(n1_elements - n2_elements) / toFloat(n1_elements + n2_elements)) * 0.5 +\n                    (1.0 - abs(n1_relationships - n2_relationships) / toFloat(n1_relationships + n2_relationships)) * 0.5\n                )\n            END AS structural_similarity\n\n        // Compare child nodes (Compartments, Species, Reactions, etc.)\n        MATCH (n1)-[:HAS_COMPARTMENT|HAS_SPECIES|HAS_REACTION]->(child1)\n        MATCH (n2)-[:HAS_COMPARTMENT|HAS_SPECIES|HAS_REACTION]->(child2)\n        WHERE labels(child1) = labels(child2)\n\n        WITH n1, n2, w_structure, w_children,\n            structural_similarity,\n            collect(child1) AS children1, collect(child2) AS children2\n\n        // Calculate child node similarity\n        WITH n1, n2, w_structure, w_children,\n            structural_similarity,\n            children1, children2,\n            size(children1) AS total_children\n\n        UNWIND children2 AS c2\n        WITH n1, n2, w_structure, w_children,\n            structural_similarity,\n            children1, total_children, collect(c2.id) AS children2_ids\n\n        WITH n1, n2, w_structure, w_children,\n            structural_similarity,\n            total_children,\n            CASE WHEN total_children > 0\n                THEN toFloat(size([c1 IN children1 WHERE c1.id IN children2_ids])) / total_children\n                ELSE 1.0\n            END AS children_similarity\n            \n        // Calculate final similarity score\n        WITH \n            structural_similarity * w_structure +\n            children_similarity * w_children\n            AS similarity_score\n\n        RETURN similarity_score"

/-- The query text built by `compare_models` (lines 144–206). -/
def compareQueryText (m1 m2 : String) : String :=
  compareQueryHead ++ m1 ++ compareQueryMid ++ m2 ++ compareQueryTail

/-!
Concrete stores and importers used as witnesses and counterexamples.
-/

/-- An importer that always succeeds, producing one root node tagged and
identified by the requested tag. -/
def impOk : Importer := fun _ t => some ([⟨30, ["Model"], some t, some t⟩], [])

/-- An importer that always fails (e.g. the source file cannot be
parsed). -/
def impNone : Importer := fun _ _ => none

/-- An importer that fails for the source of model `A` and succeeds for
every other source. -/
def impFailA : Importer := fun p _ =>
  if p = "f/A.xml" then none else some ([⟨20, ["Model"], some "B", some "B"⟩], [])

/-- A store holding one already-imported model tagged `T`. -/
def gOldT : Graph := ⟨[⟨1, ["Model"], some "T", some "T"⟩], []⟩

/-- A store holding an old copy of model `T` plus an unrelated model
`U`, for the idempotence witness. -/
def witGraphC2 : Graph :=
  ⟨[⟨1, ["Model"], some "T", some "T"⟩, ⟨2, ["Model"], some "U", some "U"⟩], []⟩

/-- The store after synchronizing `T` into `witGraphC2` with `impOk`. -/
def witGraphC2Final : Graph :=
  ⟨[⟨2, ["Model"], some "U", some "U"⟩, ⟨30, ["Model"], some "T", some "T"⟩], []⟩

/-- A store holding only model `A`: comparison partner `B` is absent. -/
def cexGraphC3 : Graph := ⟨[⟨1, ["Model"], some "A", some "A"⟩], []⟩

/-- Two existing model roots, where root `A` has no qualifying child and
root `B` has one. -/
def bugGraphC4 : Graph :=
  ⟨[⟨1, ["Model"], some "A", some "A"⟩, ⟨2, ["Model"], some "B", some "B"⟩,
    ⟨3, ["Species"], some "B", some "s"⟩],
   [⟨"HAS_SPECIES", 2, 3⟩]⟩

/-- Model `A` is a containment diamond (two paths to a shared species),
model `B` is a three-child star: distinct descendant / relationship
counts versus trail counts. -/
def cexGraphC5 : Graph :=
  ⟨[⟨1, ["Model"], some "A", some "A"⟩, ⟨2, ["Species"], some "A", some "a"⟩,
    ⟨3, ["Species"], some "A", some "b"⟩, ⟨4, ["Species"], some "A", some "c"⟩,
    ⟨5, ["Model"], some "B", some "B"⟩, ⟨6, ["Species"], some "B", some "a"⟩,
    ⟨7, ["Species"], some "B", some "b"⟩, ⟨8, ["Species"], some "B", some "c"⟩],
   [⟨"HAS_SPECIES", 1, 2⟩, ⟨"HAS_SPECIES", 1, 3⟩, ⟨"HAS_SPECIES", 2, 4⟩,
    ⟨"HAS_SPECIES", 3, 4⟩, ⟨"HAS_SPECIES", 5, 6⟩, ⟨"HAS_SPECIES", 5, 7⟩,
    ⟨"HAS_SPECIES", 5, 8⟩]⟩

/-- Root `A` (node 1) has only an incoming containment relationship, so
both element counts are zero while the relationship counts differ. -/
def cexGraphC6 : Graph :=
  ⟨[⟨1, ["Model"], some "A", some "A"⟩, ⟨2, ["Species"], none, none⟩,
    ⟨3, ["Model"], some "B", some "B"⟩],
   [⟨"HAS_SPECIES", 2, 1⟩]⟩

/-- A store where tag `T` is present and its `Model` root has no
qualifying child. -/
def cexGraphC7 : Graph := ⟨[⟨1, ["Model"], some "T", some "T"⟩], []⟩

/-- A store where the `Model` root `T` has one child with an `id`. -/
def witGraphC7 : Graph :=
  ⟨[⟨1, ["Model"], some "T", some "T"⟩, ⟨2, ["Species"], some "T", some "s"⟩],
   [⟨"HAS_SPECIES", 1, 2⟩]⟩

/-- A model id crafted so that the interpolated `WHERE` clause becomes a
tautological disjunction. -/
def injId : String := "x\x22 OR n.tag<>\x22x"

/-- The condition the store's parser reads out of the query text built
from `injId`. -/
def injCond : TagCond := TagCond.orC (TagCond.eqLit "x") (TagCond.neLit "x")

/-!
Helper lemmas about deletion and the result-set shape, shared by the
claim theorems.
-/

theorem check_model_exists_delete_model (g : Graph) (t : String) :
    check_model_exists (delete_model g t) t = false := by
  rw [check_model_exists, List.any_eq_false]
  intro n hn
  rw [delete_model] at hn
  simp only [List.mem_filter, Bool.not_eq_eq_eq_not, Bool.not_true] at hn
  simp [hn.2]

theorem nodesWithTag_delete_model (g : Graph) (t : String) :
    nodesWithTag (delete_model g t) t = [] := by
  simp only [nodesWithTag, delete_model, List.filter_filter]
  refine List.filter_eq_nil_iff.mpr ?_
  intro n hn
  simp

theorem delete_model_of_not_exists (g : Graph) (t : String)
    (hex : check_model_exists g t = false) :
    delete_model g t = g := by
  have hnone : ∀ n ∈ g.nodes, tagIs t n = false := by
    intro n hn
    by_contra hcon
    have : check_model_exists g t = true :=
      List.any_eq_true.mpr ⟨n, hn, by simpa using hcon⟩
    rw [this] at hex
    exact Bool.noConfusion hex
  have h1 : g.nodes.filter (tagIs t) = [] :=
    List.filter_eq_nil_iff.mpr (fun a ha => by simp [hnone a ha])
  have h2 : g.nodes.filter (fun n => !(tagIs t n)) = g.nodes :=
    List.filter_eq_self.mpr (fun a ha => by simp [hnone a ha])
  obtain ⟨nodes, rels⟩ := g
  simp only [delete_model]
  rw [h1]
  simp_all

/-- On a successful import, the state produced by `load_and_import_model`
is: the store with the tag's old copy detach-deleted, with the imported
nodes and relationships appended. -/
theorem load_ok_state (imp : Importer) (folder : String) (g : Graph) (t : String)
    (ns : List GNode) (rs : List GRel)
    (h : imp (folder ++ "/" ++ t ++ ".xml") t = some (ns, rs)) :
    (load_and_import_model imp folder g t).1 =
      SyncResult.ok ⟨(delete_model g t).nodes ++ ns, (delete_model g t).rels ++ rs⟩ := by
  by_cases hex : check_model_exists g t
  · simp [load_and_import_model, hex, h]
  · have hex' : check_model_exists g t = false := by simpa using hex
    rw [delete_model_of_not_exists g t hex']
    simp [load_and_import_model, hex', h]

/-- C1: `load_and_import_model` performs its steps in the mandatory
order — first the existence check of the tag; if the tag exists, the
deletion of its subgraph, before anything is written; then the importer
producing nodes and relationships from the source; then one bulk write
of all nodes, and only afterwards one bulk write of all relationships. -/
theorem C1_syncOne_step_order (imp : Importer) (folder : String) (g : Graph)
    (t : String) (ns : List GNode) (rs : List GRel)
    (h : imp (folder ++ "/" ++ t ++ ".xml") t = some (ns, rs)) :
    (check_model_exists g t = true →
      (load_and_import_model imp folder g t).2 =
        [SyncEvent.checkExists t, SyncEvent.deleteTag t,
         SyncEvent.importCall (folder ++ "/" ++ t ++ ".xml") t,
         SyncEvent.writeNodes ns, SyncEvent.writeRels rs]) ∧
    (check_model_exists g t = false →
      (load_and_import_model imp folder g t).2 =
        [SyncEvent.checkExists t,
         SyncEvent.importCall (folder ++ "/" ++ t ++ ".xml") t,
         SyncEvent.writeNodes ns, SyncEvent.writeRels rs]) := by
  constructor <;> intro hex <;> simp [load_and_import_model, hex, h]

/-- Witness for C1 at a concrete store that already holds tag `T`. -/
theorem C1_syncOne_step_order_witness :
    (load_and_import_model impOk "biomodels" gOldT "T").2 =
      [SyncEvent.checkExists "T", SyncEvent.deleteTag "T",
       SyncEvent.importCall "biomodels/T.xml" "T",
       SyncEvent.writeNodes [⟨30, ["Model"], some "T", some "T"⟩],
       SyncEvent.writeRels []] :=
  (C1_syncOne_step_order impOk "biomodels" gOldT "T"
      [⟨30, ["Model"], some "T", some "T"⟩] [] rfl).1 (by decide)

/-- C9: `load_and_import_model` is not atomic on error — when the tag
exists and the import step fails after the delete step, the run raises
with the store left at the deleted state: the old subgraph is gone, no
new subgraph was written, and the tag is absent. -/
theorem C9_sync_failure_leaves_tag_absent (imp : Importer) (folder : String)
    (g : Graph) (t : String)
    (hex : check_model_exists g t = true)
    (hfail : imp (folder ++ "/" ++ t ++ ".xml") t = none) :
    (load_and_import_model imp folder g t).1 = SyncResult.err (delete_model g t) ∧
    check_model_exists (delete_model g t) t = false ∧
    nodesWithTag (delete_model g t) t = [] :=
  ⟨by simp [load_and_import_model, hex, hfail],
   check_model_exists_delete_model g t, nodesWithTag_delete_model g t⟩

/-- Witness for C9: a failing importer run against a store holding tag
`T`. -/
theorem C9_sync_failure_leaves_tag_absent_witness :
    (load_and_import_model impNone "f" gOldT "T").1 =
      SyncResult.err (delete_model gOldT "T") ∧
    check_model_exists (delete_model gOldT "T") "T" = false ∧
    nodesWithTag (delete_model gOldT "T") "T" = [] :=
  C9_sync_failure_leaves_tag_absent impNone "f" gOldT "T" (by decide) rfl

set_option maxRecDepth 20000 in
/-- C10: the three query texts embed the caller-supplied model id
verbatim.  For the id `injId` (which contains double quotes) the
existence-check and delete query texts coincide with the rendering of
the disjunction `n.tag="x" OR n.tag<>"x"`, a condition satisfied by a
node whose tag is not `injId` — so the executed query is not a
tag-equality match.  For `compare_models`, two different id pairs
(using single quotes) build the identical query text, so the executed
query cannot be an id-equality match keyed on the supplied pair. -/
theorem C10_model_id_injection :
    checkQueryText injId =
      "MATCH (n) WHERE " ++ renderTagCond injCond ++ " RETURN (n)" ∧
    deleteQueryText injId =
      "MATCH (n) WHERE " ++ renderTagCond injCond ++ " DETACH DELETE n" ∧
    evalTagCond injCond (some "y") = true ∧
    decide (("y" : String) = injId) = false ∧
    compareQueryText "a\x27 AS graph1_id, \x27b" "c" =
      compareQueryText "a" "b\x27 AS graph1_id, \x27c" ∧
    decide (("a\x27 AS graph1_id, \x27b", "c") =
      ("a", "b\x27 AS graph1_id, \x27c")) = false := by
  refine ⟨by decide, by decide, by decide, by decide, ?_, by decide⟩
  have hshort : "a\x27 AS graph1_id, \x27b" ++ (compareQueryMid ++ "c") =
      "a" ++ (compareQueryMid ++ "b\x27 AS graph1_id, \x27c") := by decide
  show compareQueryHead ++ "a\x27 AS graph1_id, \x27b" ++ compareQueryMid ++ "c"
        ++ compareQueryTail =
      compareQueryHead ++ "a" ++ compareQueryMid ++ "b\x27 AS graph1_id, \x27c"
        ++ compareQueryTail
  refine congrArg (· ++ compareQueryTail) ?_
  rw [String.append_assoc compareQueryHead, String.append_assoc compareQueryHead,
    String.append_assoc, String.append_assoc]
  exact congrArg (compareQueryHead ++ ·) hshort

/-- C8 (amended): `import_models` processes tags in input order, but a
failing tag aborts the batch — the successfully processed tags are
exactly the prefix before the failing tag, and the remaining tags are
never attempted. -/
theorem C8_import_models_aborts_at_failure (imp : Importer) (folder : String)
    (g : Graph) (tags : List String) :
    ((import_models imp folder g tags).2.2 = none →
      (import_models imp folder g tags).2.1 = tags) ∧
    (∀ u, (import_models imp folder g tags).2.2 = some u →
      ∃ rest, tags = (import_models imp folder g tags).2.1 ++ u :: rest) := by
  induction tags generalizing g with
  | nil => simp [import_models]
  | cons t ts ih =>
      rcases hl : load_and_import_model imp folder g t with ⟨res, tr⟩
      cases res with
      | ok g1 =>
          have heq : import_models imp folder g (t :: ts) =
              ((import_models imp folder g1 ts).1,
               t :: (import_models imp folder g1 ts).2.1,
               (import_models imp folder g1 ts).2.2) := by
            rw [import_models, hl]
          rw [heq]
          constructor
          · intro h
            simp only at h ⊢
            rw [(ih g1).1 h]
          · intro u hu
            obtain ⟨rest, hrest⟩ := (ih g1).2 u hu
            exact ⟨rest, by rw [List.cons_append]; exact congrArg (List.cons t) hrest⟩
      | err g1 =>
          have heq : import_models imp folder g (t :: ts) = (g1, [], some t) := by
            rw [import_models, hl]
          rw [heq]
          constructor
          · intro h; cases h
          · intro u hu
            simp only [Option.some.injEq] at hu
            exact ⟨ts, by simp [hu]⟩

/-- Witness for C8 (amended): with no failure, the processed list is the
whole input. -/
theorem C8_import_models_aborts_at_failure_witness :
    (import_models impOk "f" ⟨[], []⟩ ["A"]).2.1 = ["A"] :=
  (C8_import_models_aborts_at_failure impOk "f" ⟨[], []⟩ ["A"]).1 (by decide)

/-- Counterexample to C8 as stated: tag `A` fails, and tag `B` — whose
own synchronization would have succeeded — is never synchronized; the
batch stops instead of continuing with the remaining tags. -/
theorem C8_failure_aborts_batch_counterexample :
    import_models impFailA "f" ⟨[], []⟩ ["A", "B"] = (⟨[], []⟩, [], some "A") ∧
    check_model_exists (import_models impFailA "f" ⟨[], []⟩ ["A", "B"]).1 "B" = false ∧
    (load_and_import_model impFailA "f" ⟨[], []⟩ "B").1 =
      SyncResult.ok ⟨[⟨20, ["Model"], some "B", some "B"⟩], []⟩ :=
  ⟨by decide, by decide, by decide⟩

/-- C3 (amended): when either requested root is absent, the similarity
query returns an empty result set, `result[0]` raises a generic index
error — not a domain-specific not-found error naming the model — and no
numeric score is returned. -/
theorem C3_missing_root_no_score (g : Graph) (i1 i2 : String)
    (h : modelRoots g i1 = [] ∨ modelRoots g i2 = []) :
    compare_models g i1 i2 = CompareOutcome.indexError ∧
    ∀ q : ℚ, compare_models g i1 i2 ≠ CompareOutcome.score q := by
  have hrows : rowResults g i1 i2 = [] := by
    rcases h with h | h
    · simp [rowResults, h]
    · simp [rowResults, h]
  constructor
  · simp [compare_models, hrows]
  · intro q
    simp [compare_models, hrows]

/-- Witness for C3 (amended) at a store holding only model `A`. -/
theorem C3_missing_root_no_score_witness :
    compare_models cexGraphC3 "A" "B" = CompareOutcome.indexError :=
  (C3_missing_root_no_score cexGraphC3 "A" "B" (Or.inr (by decide))).1

/-- Counterexample to C3 as stated: comparing existing `A` with absent
`B` produces the generic empty-result index error, which is not a
not-found outcome identifying the missing model. -/
theorem C3_missing_root_counterexample :
    decide (modelRoots cexGraphC3 "A" = []) = false ∧
    modelRoots cexGraphC3 "B" = [] ∧
    compare_models cexGraphC3 "A" "B" = CompareOutcome.indexError ∧
    decide (compare_models cexGraphC3 "A" "B" = CompareOutcome.notFound "B") = false ∧
    decide (compare_models cexGraphC3 "A" "B" = CompareOutcome.score 0) = false :=
  ⟨by decide, by decide, by decide, by decide, by decide⟩

/-- C4 (code bug): with both roots present but root `A` having zero
qualifying children, the non-optional child `MATCH` eliminates every
row, the query returns an empty result set, and `compare_models` raises
at `result[0]` — instead of the vacuous child similarity `1.0` of the
claim (the query's own `ELSE 1.0` branch for `total_children = 0` is
unreachable). -/
theorem C4_zero_children_raises :
    (modelRoots bugGraphC4 "A").length = 1 ∧
    (modelRoots bugGraphC4 "B").length = 1 ∧
    childrenOf bugGraphC4 ⟨1, ["Model"], some "A", some "A"⟩ = [] ∧
    compare_models bugGraphC4 "A" "B" = CompareOutcome.indexError :=
  ⟨by decide, by decide, by decide, by decide⟩

/-- C5 (amended): the structural-similarity component is computed from
the directed containment-trail counts and undirected containment-trail
counts at each root (not, in general, from the count of distinct
descendant elements and of incident relationships), combined — when
either pair of counts differs — as
`0.5*(1 - |e1-e2|/(e1+e2)) + 0.5*(1 - |r1-r2|/(r1+r2))`; counts of 10
versus 8 with equal nonzero relationship counts give `17/18 ≈ 0.944`. -/
theorem C5_structural_from_trail_counts :
    (∀ (g : Graph) (v1 v2 : Nat),
      structuralSimOfGraph g v1 v2 =
        structuralSim (elemCount g v1) (elemCount g v2)
          (relCount g v1) (relCount g v2)) ∧
    (∀ e1 e2 r1 r2 : Nat, ¬(e1 = e2 ∧ r1 = r2) → e1 + e2 ≠ 0 → r1 + r2 ≠ 0 →
      structuralSim e1 e2 r1 r2 =
        some ((1 - |(e1 : ℚ) - (e2 : ℚ)| / ((e1 : ℚ) + (e2 : ℚ))) * (1 / 2) +
              (1 - |(r1 : ℚ) - (r2 : ℚ)| / ((r1 : ℚ) + (r2 : ℚ))) * (1 / 2))) ∧
    structuralSim 10 8 9 9 = some (17 / 18) := by
  refine ⟨fun g v1 v2 => rfl, fun e1 e2 r1 r2 h1 h2 h3 => ?_, ?_⟩
  · unfold structuralSim
    rw [if_neg h1, if_neg (by push_neg; exact ⟨h2, h3⟩)]
  · simp only [structuralSim]
    norm_num

/-- Witness for C5 (amended) at the 10-versus-8 scenario. -/
theorem C5_structural_from_trail_counts_witness :
    structuralSim 10 8 9 9 =
      some ((1 - |(10 : ℚ) - (8 : ℚ)| / ((10 : ℚ) + (8 : ℚ))) * (1 / 2) +
            (1 - |(9 : ℚ) - (9 : ℚ)| / ((9 : ℚ) + (9 : ℚ))) * (1 / 2)) :=
  C5_structural_from_trail_counts.2.1 10 8 9 9 (by decide) (by decide) (by decide)

/-- Counterexample to C5 as stated: in `cexGraphC5` the query's
structural component (`54/77`, from trail counts 4, 3 and 8, 3)
differs from the value the claim prescribes (`13/14`, from descendant
counts 3, 3 and incident-relationship counts 4, 3). -/
theorem C5_trails_vs_descendants_counterexample :
    structuralSimOfGraph cexGraphC5 1 5 = some (54 / 77) ∧
    specStructuralSimOfGraph cexGraphC5 1 5 = some (13 / 14) ∧
    elemCount cexGraphC5 1 = 4 ∧ specElemCount cexGraphC5 1 = 3 ∧
    relCount cexGraphC5 1 = 8 ∧ specRelCount cexGraphC5 1 = 4 ∧
    ((54 : ℚ) / 77) < ((13 : ℚ) / 14) := by
  have he1 : elemCount cexGraphC5 1 = 4 := by decide
  have he5 : elemCount cexGraphC5 5 = 3 := by decide
  have hr1 : relCount cexGraphC5 1 = 8 := by decide
  have hr5 : relCount cexGraphC5 5 = 3 := by decide
  have hse1 : specElemCount cexGraphC5 1 = 3 := by decide
  have hse5 : specElemCount cexGraphC5 5 = 3 := by decide
  have hsr1 : specRelCount cexGraphC5 1 = 4 := by decide
  have hsr5 : specRelCount cexGraphC5 5 = 3 := by decide
  refine ⟨?_, ?_, he1, hse1, hr1, hsr1, by norm_num⟩
  · rw [structuralSimOfGraph, he1, he5, hr1, hr5]
    simp only [structuralSim]
    norm_num
  · rw [specStructuralSimOfGraph, hse1, hse5, hsr1, hsr5]
    simp only [structuralSim]
    norm_num

/-- C6 (amended): the query special-cases only the all-equal case — in
particular two models with zero elements and zero relationships get
structural similarity `1.0`, with no division — but when one pair of
counts sums to zero while the other pair differs, the division by zero
does occur and the term is `NaN`. -/
theorem C6_zero_counts_structural_one (g : Graph) (v1 v2 : Nat)
    (he : elemCount g v1 + elemCount g v2 = 0)
    (hr : relCount g v1 + relCount g v2 = 0) :
    structuralSimOfGraph g v1 v2 = some 1 := by
  have h1 : elemCount g v1 = 0 := by omega
  have h2 : elemCount g v2 = 0 := by omega
  have h3 : relCount g v1 = 0 := by omega
  have h4 : relCount g v2 = 0 := by omega
  rw [structuralSimOfGraph, h1, h2, h3, h4]
  rfl

/-- Witness for C6 (amended) on the empty store. -/
theorem C6_zero_counts_structural_one_witness :
    structuralSimOfGraph ⟨[], []⟩ 0 1 = some 1 :=
  C6_zero_counts_structural_one ⟨[], []⟩ 0 1 (by decide) (by decide)

/-- Counterexample to C6 as stated: in `cexGraphC6` the element counts
sum to zero while the relationship counts differ, so the element term
is not special-cased, `0 / toFloat(0)` is evaluated, and the structural
similarity is `NaN` — a division-by-zero outcome with a zero count
sum. -/
theorem C6_zero_sum_division_counterexample :
    elemCount cexGraphC6 1 + elemCount cexGraphC6 3 = 0 ∧
    decide (relCount cexGraphC6 1 = relCount cexGraphC6 3) = false ∧
    structuralSimOfGraph cexGraphC6 1 3 = none :=
  ⟨by decide, by decide, by decide⟩

/-- Membership in the surviving child rows, componentwise. -/
theorem mem_childRows {g : Graph} {n1 n2 : GNode} {p : GNode × GNode} :
    p ∈ childRows g n1 n2 ↔
      p.1 ∈ childrenOf g n1 ∧ p.2 ∈ childrenOf g n2 ∧ p.2.labels = p.1.labels := by
  constructor
  · intro hp
    simp only [childRows, List.mem_flatMap, List.mem_map, List.mem_filter,
      decide_eq_true_eq] at hp
    obtain ⟨c1, hc1, c2, ⟨hc2, hlab⟩, hpe⟩ := hp
    cases hpe
    exact ⟨hc1, hc2, hlab⟩
  · rintro ⟨h1, h2, h3⟩
    simp only [childRows, List.mem_flatMap, List.mem_map, List.mem_filter,
      decide_eq_true_eq]
    exact ⟨p.1, h1, p.2, ⟨h2, h3⟩, rfl⟩

/-- In a self-comparison, every A-side child also occurs on the B side,
so the child ratio is `1` (provided some row survives and children carry
ids). -/
theorem childRatio_self_eq_one (g : Graph) (r : GNode)
    (hrows : childRows g r r ≠ [])
    (hids : ∀ c ∈ childrenOf g r, c.id.isSome = true) :
    childRatio (childRows g r r) = 1 := by
  have hall : ∀ c ∈ (childRows g r r).map Prod.fst,
      idMatches ((childRows g r r).map (fun p => p.2.id)) c = true := by
    intro c hc
    simp only [List.mem_map] at hc
    obtain ⟨p, hp, hfst⟩ := hc
    subst hfst
    have h1 : p.1 ∈ childrenOf g r := (mem_childRows.mp hp).1
    have hcc : (p.1, p.1) ∈ childRows g r r := mem_childRows.mpr ⟨h1, h1, rfl⟩
    obtain ⟨v, hv⟩ := Option.isSome_iff_exists.mp (hids p.1 h1)
    have hm : idMatches ((childRows g r r).map (fun p => p.2.id)) p.1 =
        decide (some v ∈ (childRows g r r).map (fun p => p.2.id)) := by
      unfold idMatches
      rw [hv]
    rw [hm, decide_eq_true_eq]
    exact List.mem_map.mpr ⟨(p.1, p.1), hcc, hv⟩
  have hfilter :
      ((childRows g r r).map Prod.fst).filter
          (idMatches ((childRows g r r).map (fun p => p.2.id))) =
        (childRows g r r).map Prod.fst :=
    List.filter_eq_self.mpr hall
  have hlen : (childRows g r r).map Prod.fst ≠ [] := by
    intro h
    exact hrows (List.map_eq_nil_iff.mp h)
  have hpos : 0 < ((childRows g r r).map Prod.fst).length :=
    List.length_pos.mpr hlen
  simp only [childRatio]
  rw [hfilter]
  exact div_self (by exact_mod_cast hpos.ne')

/-- C7 (amended): for an id `T` with exactly one `Model` root in the
store, at least one surviving child row, and id-carrying children,
comparing the model with itself yields the score `1.0`, with the
structural component and the child component each equal to `1.0`. -/
theorem C7_self_compare_one (g : Graph) (T : String) (r : GNode)
    (hroot : modelRoots g T = [r])
    (hrows : childRows g r r ≠ [])
    (hids : ∀ c ∈ childrenOf g r, c.id.isSome = true) :
    compare_models g T T = CompareOutcome.score 1 ∧
    structuralSimOfGraph g r.nid r.nid = some 1 ∧
    childRatio (childRows g r r) = 1 := by
  have hstruct : structuralSimOfGraph g r.nid r.nid = some 1 := by
    simp [structuralSimOfGraph, structuralSim]
  have hratio := childRatio_self_eq_one g r hrows hids
  refine ⟨?_, hstruct, hratio⟩
  have hemp : (childRows g r r).isEmpty = false := by
    cases hcr : childRows g r r with
    | nil => exact absurd hcr hrows
    | cons a l => rfl
  have hres : rowResults g T T = [rowScore g r r] := by
    simp only [rowResults, hroot, List.flatMap_cons, List.flatMap_nil,
      List.append_nil, hemp]
    rfl
  have hscore : rowScore g r r = some 1 := by
    rw [rowScore, hstruct, hratio]
    exact congrArg some (by norm_num)
  rw [compare_models, hres]
  simp only [List.head?_cons, hscore]

/-- Witness for C7 (amended) at a one-child model compared against
itself. -/
theorem C7_self_compare_one_witness :
    compare_models witGraphC7 "T" "T" = CompareOutcome.score 1 :=
  (C7_self_compare_one witGraphC7 "T" ⟨1, ["Model"], some "T", some "T"⟩
    (by decide) (by decide) (by decide)).1

/-- Counterexample to C7 as stated: tag `T` is present in the store, yet
`compare_models "T" "T"` raises the empty-result index error (the root
has no qualifying children), not a score of `1.0`. -/
theorem C7_self_compare_counterexample :
    check_model_exists cexGraphC7 "T" = true ∧
    compare_models cexGraphC7 "T" "T" = CompareOutcome.indexError ∧
    decide (compare_models cexGraphC7 "T" "T" = CompareOutcome.score 1) = false :=
  ⟨by decide, by decide, by decide⟩

/-- Deleting a tag from a store made of a tag-free part `B`, `R` plus an
appended copy `ns`, `rs` of the tagged model removes exactly the
appended copy. -/
theorem delete_model_append (B : List GNode) (R : List GRel) (ns : List GNode)
    (rs : List GRel) (t : String)
    (hB : ∀ n ∈ B, tagIs t n = false)
    (htag : ∀ n ∈ ns, tagIs t n = true)
    (hR : ∀ r ∈ R, r.src ∉ ns.map GNode.nid ∧ r.dst ∉ ns.map GNode.nid)
    (hrs : ∀ r ∈ rs, r.src ∈ ns.map GNode.nid) :
    delete_model ⟨B ++ ns, R ++ rs⟩ t = ⟨B, R⟩ := by
  have h1 : B.filter (fun n => !(tagIs t n)) = B :=
    List.filter_eq_self.mpr (fun n hn => by simp [hB n hn])
  have h2 : ns.filter (fun n => !(tagIs t n)) = [] :=
    List.filter_eq_nil_iff.mpr (fun n hn => by simp [htag n hn])
  have h3 : B.filter (tagIs t) = [] :=
    List.filter_eq_nil_iff.mpr (fun n hn => by simp [hB n hn])
  have h4 : ns.filter (tagIs t) = ns := List.filter_eq_self.mpr htag
  simp only [delete_model, List.filter_append, h1, h2, h3, h4,
    List.append_nil, List.nil_append]
  have h5 : R.filter (fun r =>
      decide (r.src ∉ ns.map GNode.nid) && decide (r.dst ∉ ns.map GNode.nid)) = R :=
    List.filter_eq_self.mpr (fun r hr => by simp [(hR r hr).1, (hR r hr).2])
  have h6 : rs.filter (fun r =>
      decide (r.src ∉ ns.map GNode.nid) && decide (r.dst ∉ ns.map GNode.nid)) = [] :=
    List.filter_eq_nil_iff.mpr (fun r hr => by simp [hrs r hr])
  rw [h5, h6, List.append_nil]

/-- C2 (as stated, with explicit well-formedness of the store and of the
imported records): a successful `load_and_import_model` is idempotent —
running it again from the resulting store leaves the store unchanged —
and the resulting store's `tag = t` nodes are exactly the single
imported copy `ns` (no duplicated model).  Hypotheses: the importer is a
function (deterministic); imported nodes carry the tag and imported
relationships connect imported nodes; store relationships have existing
endpoints; imported node identities are fresh for the untagged part. -/
theorem C2_syncOne_idempotent (imp : Importer) (folder : String) (g g1 : Graph)
    (t : String) (ns : List GNode) (rs : List GRel)
    (himp : imp (folder ++ "/" ++ t ++ ".xml") t = some (ns, rs))
    (htag : ∀ n ∈ ns, n.tag = some t)
    (hends : ∀ r ∈ rs, r.src ∈ ns.map GNode.nid ∧ r.dst ∈ ns.map GNode.nid)
    (hwf : ∀ r ∈ g.rels,
      (∃ m ∈ g.nodes, m.nid = r.src) ∧ (∃ m ∈ g.nodes, m.nid = r.dst))
    (hfresh : ∀ m ∈ g.nodes, m.tag ≠ some t → m.nid ∉ ns.map GNode.nid)
    (hok : (load_and_import_model imp folder g t).1 = SyncResult.ok g1) :
    (load_and_import_model imp folder g1 t).1 = SyncResult.ok g1 ∧
    nodesWithTag g1 t = ns := by
  have h1 := load_ok_state imp folder g t ns rs himp
  rw [hok] at h1
  have hg1 : g1 = ⟨(delete_model g t).nodes ++ ns, (delete_model g t).rels ++ rs⟩ :=
    SyncResult.ok.inj h1
  have hB : ∀ n ∈ (delete_model g t).nodes, tagIs t n = false := by
    intro n hn
    have hn' : n ∈ g.nodes.filter (fun n => !(tagIs t n)) := hn
    simp only [List.mem_filter, Bool.not_eq_eq_eq_not, Bool.not_true] at hn'
    exact hn'.2
  have htag' : ∀ n ∈ ns, tagIs t n = true := by
    intro n hn
    simp [tagIs, htag n hn]
  have hR : ∀ r ∈ (delete_model g t).rels,
      r.src ∉ ns.map GNode.nid ∧ r.dst ∉ ns.map GNode.nid := by
    intro r hr
    have hr' : r ∈ g.rels.filter (fun r =>
        decide (r.src ∉ (g.nodes.filter (tagIs t)).map GNode.nid) &&
        decide (r.dst ∉ (g.nodes.filter (tagIs t)).map GNode.nid)) := hr
    simp only [List.mem_filter, Bool.and_eq_true, decide_eq_true_eq] at hr'
    obtain ⟨hrg, hsrc, hdst⟩ := hr'
    constructor
    · obtain ⟨⟨m, hm, hmnid⟩, _⟩ := hwf r hrg
      by_cases hmt : m.tag = some t
      · exact absurd (List.mem_map.mpr
          ⟨m, List.mem_filter.mpr ⟨hm, by simp [tagIs, hmt]⟩, hmnid⟩) hsrc
      · rw [← hmnid]
        exact hfresh m hm hmt
    · obtain ⟨_, ⟨m, hm, hmnid⟩⟩ := hwf r hrg
      by_cases hmt : m.tag = some t
      · exact absurd (List.mem_map.mpr
          ⟨m, List.mem_filter.mpr ⟨hm, by simp [tagIs, hmt]⟩, hmnid⟩) hdst
      · rw [← hmnid]
        exact hfresh m hm hmt
  have hdel : delete_model
      ⟨(delete_model g t).nodes ++ ns, (delete_model g t).rels ++ rs⟩ t =
      ⟨(delete_model g t).nodes, (delete_model g t).rels⟩ :=
    delete_model_append _ _ _ _ _ hB htag' hR (fun r hr => (hends r hr).1)
  subst hg1
  constructor
  · have h2 := load_ok_state imp folder
      ⟨(delete_model g t).nodes ++ ns, (delete_model g t).rels ++ rs⟩ t ns rs himp
    rw [hdel] at h2
    exact h2
  · show ((delete_model g t).nodes ++ ns).filter (tagIs t) = ns
    rw [List.filter_append,
      List.filter_eq_nil_iff.mpr (fun n hn => by simp [hB n hn]),
      List.filter_eq_self.mpr htag', List.nil_append]

/-- Witness for C2: re-running the synchronization of `T` against the
store it just produced leaves the store unchanged, and the tagged nodes
are exactly the imported copy. -/
theorem C2_syncOne_idempotent_witness :
    (load_and_import_model impOk "f" witGraphC2Final "T").1 =
      SyncResult.ok witGraphC2Final ∧
    nodesWithTag witGraphC2Final "T" = [⟨30, ["Model"], some "T", some "T"⟩] :=
  C2_syncOne_idempotent impOk "f" witGraphC2 witGraphC2Final "T"
    [⟨30, ["Model"], some "T", some "T"⟩] [] rfl
    (by decide) (by decide) (by decide) (by decide) (by decide)
